import Mathlib

/-
Verification of the SPEKE password-authenticated key-exchange core
(`SPEKE.h` engine interface and `SpekeSession.cpp` session driver).

The session layer is embedded directly from `SpekeSession.cpp`.  The engine
implementation file (`SPEKE.cpp`) is not part of the sources, only its header
with declarations and documentation; the engine bodies are therefore modelled
from the specification, and each such definition is marked in its doc comment.

Bytes are modelled as `List Nat`, big integers as `Nat`, and the external
hash / HMAC / HKDF / serialization primitives (out of scope per the spec) as
an abstract record of functions.
-/

/-- External cryptographic primitives and build-time constants.  The spec
declares the hash, HMAC, HKDF, the big-endian serialization and the cipher
parameter table as external collaborators, so they are abstract here.
`hashNat` is the hash output interpreted as a big integer (used for the
generator derivation `H(password)^2 mod p`). -/
structure Primitives where
  hash : List Nat → List Nat
  hashNat : List Nat → Nat
  hmac : List Nat → List Nat → List Nat
  hkdf : List Nat → List Nat
  strBytes : String → List Nat
  serialize : Nat → List Nat
  KEY_LEN : Nat
  NONCE_LEN : Nat

/-- Error kinds reported by the engine, mirroring the exceptions documented in
`SPEKE.h` and the spec's operation table.  In the C++ source
`AlreadyInitialized` and `NotInitialized` are logic errors while
`PeerKeyInvalid` is a runtime error; the session dispatcher distinguishes the
two classes. -/
inductive SpekeError where
  | NotInitialized
  | AlreadyInitialized
  | PeerKeyInvalid
  deriving DecidableEq, Repr

/-- Decimal digits of `n`, least significant first, using explicit fuel so the
definition is structurally recursive and kernel-evaluable. -/
def decDigits : Nat → Nat → List Nat
  | 0, _ => []
  | fuel + 1, n => if n = 0 then [] else n % 10 :: decDigits fuel (n / 10)

/-- Value of a least-significant-first decimal digit list. -/
def decValue : List Nat → Nat
  | [] => 0
  | d :: ds => d + 10 * decValue ds

/-- Decimal string rendering of a natural number (the model of C++
`std::to_string`). -/
def decimalRepr (n : Nat) : String :=
  if n = 0 then "0" else String.mk (((decDigits n n).reverse).map Nat.digitChar)

/-- Lexicographic comparison of character lists, the model of the comparison
underlying C++ `std::string::operator<` as used by `std::min` / `std::max`. -/
def leChars : List Char → List Char → Bool
  | [], _ => true
  | _ :: _, [] => false
  | a :: as, b :: bs => if a < b then true else if b < a then false else leChars as bs

/-- Lexicographic less-or-equal on strings. -/
def strLe (a b : String) : Bool := leChars a.data b.data

/-- Model of `std::min` on `std::string`. -/
def strMin (a b : String) : String := if strLe a b then a else b

/-- Model of `std::max` on `std::string`. -/
def strMax (a b : String) : String := if strLe a b then b else a

/-- Modelled from the spec: the SPEKE engine state declared in `SPEKE.h`
(whose implementation file is not among the sources).  Field names follow the
header's members: `p_`, `q_`, `gen_`, `privkey_`, `pubkey_`, `id_numbered_`,
`remote_id_numbered_`, `remote_pubkey_`, `encryption_key_`, `nonce_`,
`key_confirmation_data_`, `initialized_`. -/
structure SPEKE where
  p : Nat
  q : Nat
  gen : Nat
  privkey : Nat
  pubkey : Nat
  id_numbered : String
  remote_id_numbered : String := ""
  remote_pubkey : Nat := 0
  encryption_key : List Nat := []
  nonce : List Nat := []
  key_confirmation_data : List Nat := []
  initialized : Bool := false
  deriving DecidableEq, Repr

/-- Modelled from the spec: `SPEKE::make_generator` (body absent from the
sources); spec 4.1: `generator = (H(password) mod p)^2 mod p`. -/
def SPEKE.make_generator (prims : Primitives) (password : String) (p : Nat) : Nat :=
  ((prims.hashNat (prims.strBytes password)) % p) ^ 2 % p

/-- Modelled from the spec: `SPEKE::make_id` (body absent from the sources);
spec 4.1 step 5 and 3: `id_numbered = id ++ "-" ++ counter`. -/
def SPEKE.make_id (id : String) (count : Nat) : String :=
  id ++ "-" ++ decimalRepr count

/-- Modelled from the spec: the `SPEKE` constructor (body absent from the
sources).  It validates that `p` is positive and odd, derives the generator
from the password and rejects it when it is `<= 1` or `p - 1`, stores a
caller-supplied private exponent (modelling the uniform draw from
`[1, q-1]`), computes `pubkey = gen ^ privkey mod p` and numbers the id with
`count`. -/
def SPEKE.construct (prims : Primitives) (id password : String) (p priv count : Nat) :
    Option SPEKE :=
  let gen := SPEKE.make_generator prims password p
  if p ≤ 1 ∨ p % 2 = 0 then none
  else if gen ≤ 1 ∨ gen = p - 1 then none
  else some { p := p, q := (p - 1) / 2, gen := gen, privkey := priv,
              pubkey := gen ^ priv % p, id_numbered := SPEKE.make_id id count }

/-- Modelled from the spec: the process-wide `SPEKE::id_counts` registry;
`next` increments the per-id counter and returns its new value together with
the updated registry. -/
def SPEKE.id_counts_next (reg : String → Nat) (id : String) : Nat × (String → Nat) :=
  (reg id + 1, fun x => if x = id then reg id + 1 else reg x)

/-- Modelled from the spec: engine construction against the process-wide id
registry; spec 4.1 step 5 has the counter drawn and incremented at
construction time. -/
def SPEKE.constructR (prims : Primitives) (id password : String) (p priv : Nat)
    (reg : String → Nat) : Option SPEKE × (String → Nat) :=
  let nr := SPEKE.id_counts_next reg id
  (SPEKE.construct prims id password p priv nr.1, nr.2)

/-- Modelled from the spec: `SPEKE::make_keying_material` (body absent from
the sources).  The header comment in `SPEKE.h` gives the exact shape:
`H(min(id, remote_id), max(id, remote_id), min(pub, remote_pub),
max(pub, remote_pub), (remote_pub ^ privkey) mod p)`. -/
def SPEKE.make_keying_material (prims : Primitives) (e : SPEKE)
    (peer_id : String) (peer_pubkey : Nat) : List Nat :=
  prims.hash
    (prims.strBytes (strMin e.id_numbered peer_id) ++
     prims.strBytes (strMax e.id_numbered peer_id) ++
     prims.serialize (min e.pubkey peer_pubkey) ++
     prims.serialize (max e.pubkey peer_pubkey) ++
     prims.serialize (peer_pubkey ^ e.privkey % e.p))

/-- Modelled from the spec: `SPEKE::make_encryption_key` (body absent from the
sources); HKDF output split as `KEY_LEN` bytes of key followed by `NONCE_LEN`
bytes of nonce. -/
def SPEKE.make_encryption_key (prims : Primitives) (keying_material : List Nat) :
    List Nat × List Nat :=
  let okm := prims.hkdf keying_material
  (okm.take prims.KEY_LEN, (okm.drop prims.KEY_LEN).take prims.NONCE_LEN)

/-- Modelled from the spec: `SPEKE::gen_kcd` (body absent from the sources);
`kcd(first_id, second_id, first_pub, second_pub)` is the HMAC under the
encryption key (not the raw DH output) of the concatenation of the two ids
and the two serialized public keys. -/
def SPEKE.gen_kcd (prims : Primitives) (key : List Nat)
    (first_id second_id : String) (first_pubkey second_pubkey : Nat) : List Nat :=
  prims.hmac key
    (prims.strBytes first_id ++ prims.strBytes second_id ++
     prims.serialize first_pubkey ++ prims.serialize second_pubkey)

/-- Modelled from the spec: `SPEKE::ProvideRemotePublicKeyIdPair` (body absent
from the sources).  Returns the engine state paired with an optional error;
the C++ member throws before mutating anything on failure, which the
unchanged first component models.  Validation per spec 4.1:
`1 < v < p - 1` and `v != generator`.  On success it stores the remote pair,
derives the keying material, encryption key, nonce and the local key
confirmation data `kcd(remote_id, id, remote_pub, pub)`, and sets
`initialized`. -/
def SPEKE.ProvideRemotePublicKeyIdPair (prims : Primitives) (e : SPEKE)
    (remote_pubkey : Nat) (remote_id : String) : SPEKE × Option SpekeError :=
  if e.initialized then (e, some .AlreadyInitialized)
  else if remote_pubkey ≤ 1 ∨ e.p - 1 ≤ remote_pubkey ∨ remote_pubkey = e.gen then
    (e, some .PeerKeyInvalid)
  else
    let km := SPEKE.make_keying_material prims e remote_id remote_pubkey
    let ek := SPEKE.make_encryption_key prims km
    ({ e with remote_id_numbered := remote_id, remote_pubkey := remote_pubkey,
              encryption_key := ek.1, nonce := ek.2,
              key_confirmation_data :=
                SPEKE.gen_kcd prims ek.1 remote_id e.id_numbered remote_pubkey e.pubkey,
              initialized := true }, none)

/-- Modelled from the spec: the key confirmation value this engine expects
from its peer, `kcd(id, remote_id, pub, remote_pub)`; `ConfirmKey` compares
the received data against it. -/
def SPEKE.kcd_remote (prims : Primitives) (e : SPEKE) : List Nat :=
  SPEKE.gen_kcd prims e.encryption_key e.id_numbered e.remote_id_numbered
    e.pubkey e.remote_pubkey

/-- Modelled from the spec: `SPEKE::GetKeyConfirmationData`; requires the
engine to be initialized, else `NotInitialized`. -/
def SPEKE.GetKeyConfirmationData (e : SPEKE) : Except SpekeError (List Nat) :=
  if e.initialized then .ok e.key_confirmation_data else .error .NotInitialized

/-- Modelled from the spec: `SPEKE::ConfirmKey`; requires the engine to be
initialized, else `NotInitialized`; compares the remote key confirmation data
against the expected value. -/
def SPEKE.ConfirmKey (prims : Primitives) (e : SPEKE) (remote_kcd : List Nat) :
    Except SpekeError Bool :=
  if e.initialized then .ok (decide (remote_kcd = SPEKE.kcd_remote prims e))
  else .error .NotInitialized

/-- Modelled from the spec: `SPEKE::HmacSign`; requires the engine to be
initialized, else `NotInitialized`. -/
def SPEKE.HmacSign (prims : Primitives) (e : SPEKE) (message : List Nat) :
    Except SpekeError (List Nat) :=
  if e.initialized then .ok (prims.hmac e.encryption_key message)
  else .error .NotInitialized

/-- Modelled from the spec: `SPEKE::ConfirmHmacSignature`; requires the engine
to be initialized, else `NotInitialized`. -/
def SPEKE.ConfirmHmacSignature (prims : Primitives) (e : SPEKE)
    (hmac_signature message : List Nat) : Except SpekeError Bool :=
  if e.initialized then
    .ok (decide (hmac_signature = prims.hmac e.encryption_key message))
  else .error .NotInitialized

/-- Session states, from `SpekeSessionState` as used throughout
`SpekeSession.cpp`. -/
inductive SpekeSessionState where
  | IDLE
  | RUNNING
  | STOPPED
  | STOPPED_ERROR
  | STOPPED_PEER_DISCONNECTED
  | STOPPED_PEER_PUBLIC_KEY_OR_ID_INVALID
  | STOPPED_KEY_CONFIRMATION_FAILED
  | STOPPED_PEER_BAD_BEHAVIOR
  deriving DecidableEq, Repr

/-- Wire envelope `SpekeMessage`: at most one of the three protobuf variants
is set; `empty` is an envelope with no variant set (also what
`ReceiveMessage` yields when `ParseFromArray` fails, since its result is
ignored and the default-constructed message is returned).  Public keys on the
wire are modelled at the big-integer level. -/
inductive SpekeMessage where
  | initData (id : String) (public_key : Nat)
  | keyConfirmation (data : List Nat)
  | signedData (hmac_signature : List Nat) (data : List Nat)
  | empty
  deriving DecidableEq, Repr

/-- Transport error codes distinguished by the classification switches in
`send_message` and `receive_message`: `asio::error::eof`,
`asio::error::bad_descriptor`, `asio::error::broken_pipe`, and any other
code. -/
inductive StreamError where
  | eof
  | bad_descriptor
  | broken_pipe
  | other (code : Nat)
  deriving DecidableEq, Repr

/-- Outcome of the blocking reads inside the static `ReceiveMessage`:
either the read threw an `asio::system_error`, or a body was read and
either parses to a message or fails to parse. -/
inductive WireRead where
  | err (e : StreamError)
  | ok (parsed : Option SpekeMessage)
  deriving DecidableEq, Repr

/-- Exceptions of the session layer that are not `asio::system_error`:
`std::invalid_argument` (socket not open in the static helpers) and the
engine's `NotInitialized` logic error. -/
inductive SessionExn where
  | invalidArgument
  | notInitialized
  deriving DecidableEq, Repr

/-- Exception escaping `handle_read` to its caller (the asio executor). -/
inductive ThrownExn where
  | engine (e : SpekeError)
  | session (e : SessionExn)
  deriving DecidableEq, Repr

/-- Session state record, from the members of `SpekeSession`:
`state_`, `closed_`, `speke_` (released on close, hence optional),
`socket_` (modelled by its open flag), `message_handler_` (abstract token),
`bad_behavior_count_`.  `sent` logs the frames written to the socket,
`delivered` logs the payloads handed to the message handler, and
`readPending` records whether an `async_wait` read registration
(`start_reading`) is outstanding. -/
structure SpekeSession where
  state : SpekeSessionState
  closed : Bool
  speke : Option SPEKE
  socketOpen : Bool
  handler : Option Nat
  bad_behavior_count : Nat
  sent : List SpekeMessage
  delivered : List (List Nat)
  readPending : Bool
  deriving DecidableEq, Repr

/-- Bad-behavior threshold.  Modelled from the spec: `SpekeSession.h`, which
defines the constant, is absent from the sources; the spec gives it as a
small positive integer with example value 3. -/
def BAD_BEHAVIOR_LIMIT : Nat := 3

/-- Embeds `SpekeSession::Close`: the `closed_` latch makes every call after
the first a no-op; the first call shuts down and closes the socket
(cancelling outstanding asynchronous operations), releases the engine, and
stores the terminal state. -/
def SpekeSession.Close (s : SpekeSession) (state : SpekeSessionState) : SpekeSession :=
  if s.closed then s
  else { s with closed := true, socketOpen := false, speke := none,
                readPending := false, state := state }

/-- Embeds `SpekeSession::start_reading`: registers the read wait whose
completion invokes `handle_read`. -/
def SpekeSession.start_reading (s : SpekeSession) : SpekeSession :=
  { s with readPending := true }

/-- Embeds `SpekeSession::handle_message`: fetches the handler under the
mutex and invokes it with the payload; the invocation is modelled by
appending the payload to the `delivered` log. -/
def SpekeSession.handle_message (s : SpekeSession) (message : List Nat) : SpekeSession :=
  { s with delivered := s.delivered ++ [message] }

/-- Embeds `SpekeSession::SetMessageHandler`: swaps the handler under the
mutex. -/
def SpekeSession.SetMessageHandler (s : SpekeSession) (handler : Nat) : SpekeSession :=
  { s with handler := some handler }

/-- Embeds `SpekeSession::GetState`. -/
def SpekeSession.GetState (s : SpekeSession) : SpekeSessionState := s.state

/-- Embeds `SpekeSession::increase_bad_behavior_count`: pre-increments the
counter and closes with `STOPPED_PEER_BAD_BEHAVIOR` once it reaches
`BAD_BEHAVIOR_LIMIT`. -/
def SpekeSession.increase_bad_behavior_count (s : SpekeSession) : SpekeSession :=
  let s1 := { s with bad_behavior_count := s.bad_behavior_count + 1 }
  if BAD_BEHAVIOR_LIMIT ≤ s1.bad_behavior_count then
    SpekeSession.Close s1 .STOPPED_PEER_BAD_BEHAVIOR
  else s1

/-- Embeds the static `SpekeSession::SendMessage(message, socket)`: throws
`std::invalid_argument` when the socket is not open, then serializes the
length-prefixed frame and writes it; `wr` is the outcome of the write
(`some e` when it raised `asio::system_error e`). -/
def SpekeSession.SendMessage (message : SpekeMessage) (socketOpen : Bool)
    (wr : Option StreamError) : Except SessionExn (Option StreamError) :=
  if socketOpen then .ok wr else .error .invalidArgument

/-- Embeds the private `SpekeSession::send_message`: calls the static
`SendMessage` and classifies a thrown `asio::system_error` (eof, bad
descriptor, broken pipe close with `STOPPED_PEER_DISCONNECTED`; anything else
with `STOPPED_ERROR`).  A `std::invalid_argument` from the static helper is
not an `asio::system_error` and escapes.  On success the frame is recorded in
the `sent` log. -/
def SpekeSession.send_message (s : SpekeSession) (message : SpekeMessage)
    (wr : Option StreamError) : Except SessionExn SpekeSession :=
  match SpekeSession.SendMessage message s.socketOpen wr with
  | .error e => .error e
  | .ok none => .ok { s with sent := s.sent ++ [message] }
  | .ok (some .eof) => .ok (SpekeSession.Close s .STOPPED_PEER_DISCONNECTED)
  | .ok (some .bad_descriptor) => .ok (SpekeSession.Close s .STOPPED_PEER_DISCONNECTED)
  | .ok (some .broken_pipe) => .ok (SpekeSession.Close s .STOPPED_PEER_DISCONNECTED)
  | .ok (some (.other _)) => .ok (SpekeSession.Close s .STOPPED_ERROR)

/-- Embeds `SpekeSession::send_key_confirmation`: asks the engine (passed
explicitly; the member reads `speke_`) for the key confirmation data and
sends a `KeyConfirmation` frame with it; engine and transport exceptions
propagate to the caller. -/
def SpekeSession.send_key_confirmation (eng : SPEKE) (s : SpekeSession)
    (wr : Option StreamError) : Except SessionExn SpekeSession :=
  match SPEKE.GetKeyConfirmationData eng with
  | .error _ => .error .notInitialized
  | .ok kcd => SpekeSession.send_message s (SpekeMessage.keyConfirmation kcd) wr

/-- Embeds the static `SpekeSession::ReceiveMessage(socket)`: throws
`std::invalid_argument` when the socket is not open; the two blocking reads
may throw `asio::system_error`; the body is then parsed with
`ParseFromArray`, whose result is ignored, so an unparseable body yields the
default-constructed (empty) message. -/
def SpekeSession.ReceiveMessage (socketOpen : Bool) (w : WireRead) :
    Except SessionExn (Except StreamError SpekeMessage) :=
  if socketOpen then
    match w with
    | .err e => .ok (.error e)
    | .ok none => .ok (.ok SpekeMessage.empty)
    | .ok (some m) => .ok (.ok m)
  else .error .invalidArgument

/-- Embeds the private `SpekeSession::receive_message`: calls the static
`ReceiveMessage` and classifies a thrown `asio::system_error` exactly like
`send_message` does, returning `none` in that case; a
`std::invalid_argument` escapes. -/
def SpekeSession.receive_message (s : SpekeSession) (w : WireRead) :
    Except SessionExn (SpekeSession × Option SpekeMessage) :=
  match SpekeSession.ReceiveMessage s.socketOpen w with
  | .error e => .error e
  | .ok (.ok m) => .ok (s, some m)
  | .ok (.error .eof) => .ok (SpekeSession.Close s .STOPPED_PEER_DISCONNECTED, none)
  | .ok (.error .bad_descriptor) =>
      .ok (SpekeSession.Close s .STOPPED_PEER_DISCONNECTED, none)
  | .ok (.error .broken_pipe) =>
      .ok (SpekeSession.Close s .STOPPED_PEER_DISCONNECTED, none)
  | .ok (.error (.other _)) => .ok (SpekeSession.Close s .STOPPED_ERROR, none)

/-- Outcome of one `handle_read` invocation: a normal return with the new
session state, an exception escaping to the asio executor, or undefined
behavior (dereference of the released engine). -/
inductive HandleOutcome where
  | normal (s : SpekeSession)
  | threw (s : SpekeSession) (e : ThrownExn)
  | ub
  deriving DecidableEq, Repr

/-- Embeds `SpekeSession::handle_read`, the inbound frame dispatcher.
Inputs: `ec` is the error code delivered by `async_wait`, `w` the outcome of
the blocking read, `wr` the outcome of the key-confirmation write (used only
on the `InitData` success path).  Faithful points: only the `InitData` branch
sits in a try/catch (logic errors ignored, runtime errors close with
`STOPPED_PEER_PUBLIC_KEY_OR_ID_INVALID`), so engine errors from
`ConfirmHmacSignature` and `ConfirmKey` escape; a failed signature check
falls through to `start_reading` after `increase_bad_behavior_count`; a
`receive_message` failure closes with `STOPPED_ERROR` (a no-op when
`receive_message` already latched a close). -/
def SpekeSession.handle_read (prims : Primitives) (s : SpekeSession)
    (ec : Option StreamError) (w : WireRead) (wr : Option StreamError) : HandleOutcome :=
  match ec with
  | some _ => .normal (SpekeSession.Close s .STOPPED_ERROR)
  | none =>
    match SpekeSession.receive_message s w with
    | .error e => .threw s (.session e)
    | .ok (s1, none) => .normal (SpekeSession.Close s1 .STOPPED_ERROR)
    | .ok (s1, some m) =>
      match m with
      | .signedData sig data =>
        match s1.speke with
        | none => .ub
        | some eng =>
          match SPEKE.ConfirmHmacSignature prims eng sig data with
          | .error e => .threw s1 (.engine e)
          | .ok true => .normal (SpekeSession.start_reading (s1.handle_message data))
          | .ok false =>
              .normal (SpekeSession.start_reading s1.increase_bad_behavior_count)
      | .initData id pk =>
        match s1.speke with
        | none => .ub
        | some eng =>
          match SPEKE.ProvideRemotePublicKeyIdPair prims eng pk id with
          | (_, some .PeerKeyInvalid) =>
              .normal (SpekeSession.Close s1 .STOPPED_PEER_PUBLIC_KEY_OR_ID_INVALID)
          | (_, some _) => .normal (SpekeSession.start_reading s1)
          | (eng1, none) =>
            let s2 := { s1 with speke := some eng1 }
            match SpekeSession.send_key_confirmation eng1 s2 wr with
            | .error _ => .normal (SpekeSession.start_reading s2)
            | .ok s3 => .normal (SpekeSession.start_reading s3)
      | .keyConfirmation kcd =>
        match s1.speke with
        | none => .ub
        | some eng =>
          match SPEKE.ConfirmKey prims eng kcd with
          | .error e => .threw s1 (.engine e)
          | .ok false =>
              .normal (SpekeSession.Close s1 .STOPPED_KEY_CONFIRMATION_FAILED)
          | .ok true => .normal (SpekeSession.start_reading s1)
      | .empty => .normal (SpekeSession.start_reading s1)

/-- Embeds `SpekeSession::Run`: only permitted in `IDLE` (else a logic error
is thrown to the caller, modelled as `.error`); stores the handler, builds
the `InitData` frame from the engine's numbered id and public key, registers
the read, sends the frame through `send_message`, and finally assigns
`state_ = RUNNING` unconditionally.  The `.error` on a released engine
stands for the unreachable null dereference (the constructor guarantees an
engine and `IDLE` implies it has not been released). -/
def SpekeSession.Run (s : SpekeSession) (handler : Nat) (wr : Option StreamError) :
    Except SessionExn SpekeSession :=
  match s.speke with
  | none => .error .invalidArgument
  | some eng =>
    if s.state ≠ SpekeSessionState.IDLE then .error .invalidArgument
    else
      let s1 := SpekeSession.SetMessageHandler s handler
      let msg := SpekeMessage.initData eng.id_numbered eng.pubkey
      let s2 := SpekeSession.start_reading s1
      match SpekeSession.send_message s2 msg wr with
      | .error e => .error e
      | .ok s3 => .ok { s3 with state := SpekeSessionState.RUNNING }

/-- Concrete primitives used to evaluate the model on explicit inputs. -/
def prims0 : Primitives where
  hash := fun l => l
  hashNat := fun l => l.headD 0
  hmac := fun k m => k ++ m
  hkdf := fun l => l
  strBytes := fun s => s.data.map Char.toNat
  serialize := fun n => [n]
  KEY_LEN := 2
  NONCE_LEN := 2

/-- Concrete initialized engine (fields as left by a successful
`ProvideRemotePublicKeyIdPair`). -/
def engInit : SPEKE where
  p := 23
  q := 11
  gen := 2
  privkey := 3
  pubkey := 8
  id_numbered := "alice-1"
  remote_id_numbered := "bob-1"
  remote_pubkey := 16
  encryption_key := [1, 2]
  nonce := [3, 4]
  key_confirmation_data := [9]
  initialized := true

/-- Concrete engine that has not yet accepted a remote pair. -/
def engFresh : SPEKE where
  p := 23
  q := 11
  gen := 2
  privkey := 3
  pubkey := 8
  id_numbered := "alice-1"

/-- Concrete fresh engine of the second peer. -/
def engFreshB : SPEKE where
  p := 23
  q := 11
  gen := 2
  privkey := 4
  pubkey := 16
  id_numbered := "bob-1"

/-- Concrete live running session holding the initialized engine. -/
def sessRun : SpekeSession where
  state := .RUNNING
  closed := false
  speke := some engInit
  socketOpen := true
  handler := some 0
  bad_behavior_count := 0
  sent := []
  delivered := []
  readPending := false

/-- Concrete live running session whose engine has not accepted a remote
pair yet. -/
def sessFresh : SpekeSession where
  state := .RUNNING
  closed := false
  speke := some engFresh
  socketOpen := true
  handler := some 0
  bad_behavior_count := 0
  sent := []
  delivered := []
  readPending := false

/-- Concrete idle session as left by the constructor. -/
def sessIdle : SpekeSession where
  state := .IDLE
  closed := false
  speke := some engFresh
  socketOpen := true
  handler := none
  bad_behavior_count := 0
  sent := []
  delivered := []
  readPending := false

/-- Strings with equal character data are equal. -/
theorem string_data_inj {s t : String} (h : s.data = t.data) : s = t := by
  cases s
  cases t
  exact congrArg String.mk h

/-- Totality of the lexicographic comparison. -/
theorem leChars_total : ∀ x y : List Char, leChars x y = true ∨ leChars y x = true
  | [], _ => Or.inl rfl
  | _ :: _, [] => Or.inr rfl
  | a :: as, b :: bs => by
    by_cases hab : a < b
    · left
      simp [leChars, hab]
    · by_cases hba : b < a
      · right
        simp [leChars, hba]
      · rcases leChars_total as bs with h | h <;>
          simp [leChars, hab, hba, h]

/-- Antisymmetry of the lexicographic comparison. -/
theorem leChars_antisymm : ∀ x y : List Char,
    leChars x y = true → leChars y x = true → x = y
  | [], [], _, _ => rfl
  | [], _ :: _, _, h2 => by simp [leChars] at h2
  | _ :: _, [], h1, _ => by simp [leChars] at h1
  | a :: as, b :: bs, h1, h2 => by
    by_cases hab : a < b
    · have hba : ¬ b < a := lt_asymm hab
      simp [leChars, hab, hba] at h2
    · by_cases hba : b < a
      · simp [leChars, hab, hba] at h1
      · have hab' : a = b := le_antisymm (not_lt.mp hba) (not_lt.mp hab)
        simp only [leChars, if_neg hab, if_neg hba] at h1 h2
        rw [hab', leChars_antisymm as bs h1 h2]

/-- Commutativity of the modelled `std::min` on strings. -/
theorem strMin_comm (a b : String) : strMin a b = strMin b a := by
  unfold strMin strLe
  rcases h1 : leChars a.data b.data with _ | _ <;>
    rcases h2 : leChars b.data a.data with _ | _ <;> simp
  · rcases leChars_total a.data b.data with h | h
    · simp [h] at h1
    · simp [h] at h2
  · exact string_data_inj (leChars_antisymm _ _ h1 h2)

/-- Commutativity of the modelled `std::max` on strings. -/
theorem strMax_comm (a b : String) : strMax a b = strMax b a := by
  unfold strMax strLe
  rcases h1 : leChars a.data b.data with _ | _ <;>
    rcases h2 : leChars b.data a.data with _ | _ <;> simp
  · rcases leChars_total a.data b.data with h | h
    · simp [h] at h1
    · simp [h] at h2
  · exact string_data_inj (leChars_antisymm _ _ h2 h1)

/-- Commutativity of the Diffie-Hellman shared value: raising the peer's
public key to the own exponent gives the same result on both sides. -/
theorem dh_comm (g p x y : Nat) : (g ^ x % p) ^ y % p = (g ^ y % p) ^ x % p := by
  rw [← Nat.pow_mod, ← Nat.pow_mod, ← pow_mul, ← pow_mul, Nat.mul_comm]

/-- Evaluating the fuelled decimal digits recovers the number when the fuel
suffices. -/
theorem decValue_decDigits : ∀ fuel n : Nat, n ≤ fuel →
    decValue (decDigits fuel n) = n
  | 0, n, h => by
    have hn : n = 0 := Nat.le_zero.mp h
    simp [hn, decDigits, decValue]
  | fuel + 1, n, h => by
    by_cases h0 : n = 0
    · simp [h0, decDigits, decValue]
    · have hd : n / 10 ≤ fuel := by
        have hlt : n / 10 < n := Nat.div_lt_self (Nat.pos_of_ne_zero h0) (by omega)
        omega
      simp [decDigits, h0, decValue, decValue_decDigits fuel (n / 10) hd,
        Nat.mod_add_div]

/-- Every fuelled decimal digit is below 10. -/
theorem decDigits_lt : ∀ fuel n : Nat, ∀ d ∈ decDigits fuel n, d < 10
  | 0, _, _, hd => by simp [decDigits] at hd
  | fuel + 1, n, d, hd => by
    by_cases h0 : n = 0
    · simp [decDigits, h0] at hd
    · simp only [decDigits, if_neg h0, List.mem_cons] at hd
      rcases hd with h | h
      · omega
      · exact decDigits_lt fuel (n / 10) d h

/-- Injectivity of the digit-to-character map on decimal digits. -/
theorem digitChar_inj_lt : ∀ a : Nat, a < 10 → ∀ b : Nat, b < 10 →
    Nat.digitChar a = Nat.digitChar b → a = b := by decide

/-- Injectivity of mapping `Nat.digitChar` over lists of decimal digits. -/
theorem map_digitChar_inj : ∀ x y : List Nat, (∀ d ∈ x, d < 10) → (∀ d ∈ y, d < 10) →
    x.map Nat.digitChar = y.map Nat.digitChar → x = y
  | [], [], _, _, _ => rfl
  | [], _ :: _, _, _, h => by simp at h
  | _ :: _, [], _, _, h => by simp at h
  | a :: as, b :: bs, hx, hy, h => by
    simp only [List.map_cons, List.cons.injEq] at h
    have hab : a = b :=
      digitChar_inj_lt a (hx a (by simp)) b (hy b (by simp)) h.1
    have htl : as = bs :=
      map_digitChar_inj as bs (fun d hd => hx d (by simp [hd]))
        (fun d hd => hy d (by simp [hd])) h.2
    rw [hab, htl]

/-- Injectivity of the decimal rendering on positive numbers. -/
theorem decimalRepr_inj (m n : Nat) (hm : m ≠ 0) (hn : n ≠ 0)
    (h : decimalRepr m = decimalRepr n) : m = n := by
  simp only [decimalRepr, if_neg hm, if_neg hn] at h
  have hdata : ((decDigits m m).reverse).map Nat.digitChar
      = ((decDigits n n).reverse).map Nat.digitChar := congrArg String.data h
  have hrev : (decDigits m m).reverse = (decDigits n n).reverse :=
    map_digitChar_inj _ _
      (fun d hd => decDigits_lt m m d (List.mem_reverse.mp hd))
      (fun d hd => decDigits_lt n n d (List.mem_reverse.mp hd)) hdata
  have hdig : decDigits m m = decDigits n n := List.reverse_inj.mp hrev
  have := congrArg decValue hdig
  rwa [decValue_decDigits m m (Nat.le_refl m),
       decValue_decDigits n n (Nat.le_refl n)] at this

/-- Injectivity of the numbered id in the counter, for positive counters. -/
theorem make_id_inj_count (id : String) (c1 c2 : Nat) (h1 : c1 ≠ 0) (h2 : c2 ≠ 0)
    (h : SPEKE.make_id id c1 = SPEKE.make_id id c2) : c1 = c2 := by
  unfold SPEKE.make_id at h
  have hdata := congrArg String.data h
  simp only [String.data_append, List.append_assoc] at hdata
  have h3 : (decimalRepr c1).data = (decimalRepr c2).data :=
    List.append_cancel_left (List.append_cancel_left hdata)
  exact decimalRepr_inj c1 c2 h1 h2 (string_data_inj h3)

/-- Closing an already-latched session is a no-op. -/
theorem close_of_closed (s : SpekeSession) (r : SpekeSessionState)
    (h : s.closed = true) : SpekeSession.Close s r = s := by
  simp [SpekeSession.Close, h]

/-- The first close latches, releases the engine and stream, and stores the
requested terminal state. -/
theorem close_of_unclosed (s : SpekeSession) (r : SpekeSessionState)
    (h : s.closed = false) :
    SpekeSession.Close s r
      = { s with closed := true, socketOpen := false, speke := none,
                 readPending := false, state := r } := by
  simp [SpekeSession.Close, h]

/-- Fold of close calls over a latched session changes nothing. -/
theorem foldl_close_of_closed : ∀ (rs : List SpekeSessionState) (t : SpekeSession),
    t.closed = true → rs.foldl SpekeSession.Close t = t
  | [], _, _ => rfl
  | r :: rs, t, h => by
    rw [List.foldl_cons, close_of_closed t r h, foldl_close_of_closed rs t h]

/-- C7: idempotent close.  For every unlatched session and any sequence of
further close calls with arbitrary reasons, the state after all of them is
the terminal value passed to the first call, and the first call is the one
that releases the engine and the stream. -/
theorem close_idempotent_latch (s : SpekeSession) (r1 : SpekeSessionState)
    (rs : List SpekeSessionState) (h : s.closed = false) :
    rs.foldl SpekeSession.Close (SpekeSession.Close s r1) = SpekeSession.Close s r1
    ∧ (SpekeSession.Close s r1).state = r1
    ∧ (SpekeSession.Close s r1).speke = none
    ∧ (SpekeSession.Close s r1).socketOpen = false := by
  have hc : (SpekeSession.Close s r1).closed = true := by
    simp [SpekeSession.Close, h]
  exact ⟨foldl_close_of_closed rs _ hc, by simp [SpekeSession.Close, h],
    by simp [SpekeSession.Close, h], by simp [SpekeSession.Close, h]⟩

/-- Witness for C7 at a concrete session and close sequence. -/
theorem close_idempotent_latch_witness :
    [SpekeSessionState.STOPPED_ERROR, SpekeSessionState.STOPPED].foldl
        SpekeSession.Close (SpekeSession.Close sessRun SpekeSessionState.STOPPED)
      = SpekeSession.Close sessRun SpekeSessionState.STOPPED
    ∧ (SpekeSession.Close sessRun SpekeSessionState.STOPPED).state
        = SpekeSessionState.STOPPED
    ∧ (SpekeSession.Close sessRun SpekeSessionState.STOPPED).speke = none
    ∧ (SpekeSession.Close sessRun SpekeSessionState.STOPPED).socketOpen = false :=
  close_idempotent_latch sessRun SpekeSessionState.STOPPED
    [SpekeSessionState.STOPPED_ERROR, SpekeSessionState.STOPPED] rfl

/-- C10: an envelope with no variant set is silently ignored: the dispatcher
falls through every branch, leaving state, bad-behavior count, engine,
handler and sent log unchanged, sends nothing, and schedules the next
read. -/
theorem unknown_variant_ignored (prims : Primitives) (s : SpekeSession)
    (wr : Option StreamError) (h : s.socketOpen = true) :
    SpekeSession.handle_read prims s none (WireRead.ok (some SpekeMessage.empty)) wr
      = HandleOutcome.normal (SpekeSession.start_reading s)
    ∧ (SpekeSession.start_reading s).state = s.state
    ∧ (SpekeSession.start_reading s).bad_behavior_count = s.bad_behavior_count
    ∧ (SpekeSession.start_reading s).speke = s.speke
    ∧ (SpekeSession.start_reading s).handler = s.handler
    ∧ (SpekeSession.start_reading s).sent = s.sent
    ∧ (SpekeSession.start_reading s).readPending = true := by
  refine ⟨?_, rfl, rfl, rfl, rfl, rfl, rfl⟩
  simp [SpekeSession.handle_read, SpekeSession.receive_message,
    SpekeSession.ReceiveMessage, h]

/-- Witness for C10 at a concrete session. -/
theorem unknown_variant_ignored_witness :
    SpekeSession.handle_read prims0 sessRun none (WireRead.ok (some SpekeMessage.empty)) none
      = HandleOutcome.normal (SpekeSession.start_reading sessRun)
    ∧ (SpekeSession.start_reading sessRun).state = sessRun.state
    ∧ (SpekeSession.start_reading sessRun).bad_behavior_count = sessRun.bad_behavior_count
    ∧ (SpekeSession.start_reading sessRun).speke = sessRun.speke
    ∧ (SpekeSession.start_reading sessRun).handler = sessRun.handler
    ∧ (SpekeSession.start_reading sessRun).sent = sessRun.sent
    ∧ (SpekeSession.start_reading sessRun).readPending = true :=
  unknown_variant_ignored prims0 sessRun none rfl

/-- C4 counterexample: a received body that fails to parse does NOT move the
session to `STOPPED_ERROR`; `ParseFromArray`'s result is ignored, the frame
decodes as an empty envelope and is silently ignored, leaving the state at
`RUNNING`. -/
theorem parse_failure_is_ignored_not_error :
    SpekeSession.handle_read prims0 sessRun none (WireRead.ok none) none
      = HandleOutcome.normal (SpekeSession.start_reading sessRun)
    ∧ (SpekeSession.start_reading sessRun).state = SpekeSessionState.RUNNING
    ∧ SpekeSessionState.RUNNING ≠ SpekeSessionState.STOPPED_ERROR := by
  refine ⟨by decide, rfl, by decide⟩

/-- C4 (amended): read failures are classified exactly as claimed
(end-of-stream, broken pipe, bad descriptor close with
`STOPPED_PEER_DISCONNECTED`; any other transport error with
`STOPPED_ERROR`), but a body that fails to parse as an envelope is not an
error: it decodes as an empty envelope, is ignored, and the state is
unchanged. -/
theorem receive_error_classification (prims : Primitives) (s : SpekeSession)
    (wr : Option StreamError) (hopen : s.socketOpen = true) (hc : s.closed = false) :
    SpekeSession.handle_read prims s none (WireRead.err StreamError.eof) wr
      = HandleOutcome.normal (SpekeSession.Close s SpekeSessionState.STOPPED_PEER_DISCONNECTED)
    ∧ SpekeSession.handle_read prims s none (WireRead.err StreamError.broken_pipe) wr
      = HandleOutcome.normal (SpekeSession.Close s SpekeSessionState.STOPPED_PEER_DISCONNECTED)
    ∧ SpekeSession.handle_read prims s none (WireRead.err StreamError.bad_descriptor) wr
      = HandleOutcome.normal (SpekeSession.Close s SpekeSessionState.STOPPED_PEER_DISCONNECTED)
    ∧ (∀ c, SpekeSession.handle_read prims s none (WireRead.err (StreamError.other c)) wr
      = HandleOutcome.normal (SpekeSession.Close s SpekeSessionState.STOPPED_ERROR))
    ∧ (SpekeSession.Close s SpekeSessionState.STOPPED_PEER_DISCONNECTED).state
        = SpekeSessionState.STOPPED_PEER_DISCONNECTED
    ∧ (SpekeSession.Close s SpekeSessionState.STOPPED_ERROR).state
        = SpekeSessionState.STOPPED_ERROR
    ∧ SpekeSession.handle_read prims s none (WireRead.ok none) wr
      = HandleOutcome.normal (SpekeSession.start_reading s)
    ∧ (SpekeSession.start_reading s).state = s.state := by
  have hPD : (SpekeSession.Close s SpekeSessionState.STOPPED_PEER_DISCONNECTED).closed
      = true := by
    simp [SpekeSession.Close, hc]
  have hER : (SpekeSession.Close s SpekeSessionState.STOPPED_ERROR).closed = true := by
    simp [SpekeSession.Close, hc]
  refine ⟨?_, ?_, ?_, fun c => ?_, by simp [SpekeSession.Close, hc],
    by simp [SpekeSession.Close, hc], ?_, rfl⟩ <;>
    simp [SpekeSession.handle_read, SpekeSession.receive_message,
      SpekeSession.ReceiveMessage, hopen, close_of_closed _ _ hPD,
      close_of_closed _ _ hER]

/-- Witness for C4 (amended) at a concrete session. -/
theorem receive_error_classification_witness :
    SpekeSession.handle_read prims0 sessRun none (WireRead.err StreamError.eof) none
      = HandleOutcome.normal
          (SpekeSession.Close sessRun SpekeSessionState.STOPPED_PEER_DISCONNECTED)
    ∧ SpekeSession.handle_read prims0 sessRun none (WireRead.err StreamError.broken_pipe) none
      = HandleOutcome.normal
          (SpekeSession.Close sessRun SpekeSessionState.STOPPED_PEER_DISCONNECTED)
    ∧ SpekeSession.handle_read prims0 sessRun none (WireRead.err StreamError.bad_descriptor) none
      = HandleOutcome.normal
          (SpekeSession.Close sessRun SpekeSessionState.STOPPED_PEER_DISCONNECTED)
    ∧ (∀ c, SpekeSession.handle_read prims0 sessRun none (WireRead.err (StreamError.other c)) none
      = HandleOutcome.normal (SpekeSession.Close sessRun SpekeSessionState.STOPPED_ERROR))
    ∧ (SpekeSession.Close sessRun SpekeSessionState.STOPPED_PEER_DISCONNECTED).state
        = SpekeSessionState.STOPPED_PEER_DISCONNECTED
    ∧ (SpekeSession.Close sessRun SpekeSessionState.STOPPED_ERROR).state
        = SpekeSessionState.STOPPED_ERROR
    ∧ SpekeSession.handle_read prims0 sessRun none (WireRead.ok none) none
      = HandleOutcome.normal (SpekeSession.start_reading sessRun)
    ∧ (SpekeSession.start_reading sessRun).state = sessRun.state :=
  receive_error_classification prims0 sessRun none rfl rfl

/-- C2 counterexample: a `KeyConfirmation` frame arriving while the engine
has not yet accepted `InitData` makes `ConfirmKey` raise `NotInitialized`,
which is not caught anywhere in `handle_read` and escapes to the caller
instead of being absorbed into a terminal session state. -/
theorem handle_read_raises_not_initialized :
    SpekeSession.handle_read prims0 sessFresh none
        (WireRead.ok (some (SpekeMessage.keyConfirmation [1]))) none
      = HandleOutcome.threw sessFresh (ThrownExn.engine SpekeError.NotInitialized) := by
  decide

/-- C2 (amended): the dispatcher absorbs every peer-induced failure into a
terminal state provided the engine is initialized (transport errors, parse
failures, `InitData` engine errors are absorbed in every case); only
`ConfirmHmacSignature` and `ConfirmKey` on a not-yet-initialized engine can
raise out of it, since only the `InitData` branch sits in a try/catch. -/
theorem handle_read_absorbs_errors_when_initialized (prims : Primitives)
    (s : SpekeSession) (eng : SPEKE) (ec : Option StreamError) (w : WireRead)
    (wr : Option StreamError) (hs : s.speke = some eng)
    (hinit : eng.initialized = true) (hopen : s.socketOpen = true) :
    ∃ s1, SpekeSession.handle_read prims s ec w wr = HandleOutcome.normal s1 := by
  cases ec with
  | some e => exact ⟨_, rfl⟩
  | none =>
    cases w with
    | err e =>
      cases e <;>
        simp [SpekeSession.handle_read, SpekeSession.receive_message,
          SpekeSession.ReceiveMessage, hopen]
    | ok mo =>
      cases mo with
      | none =>
        simp [SpekeSession.handle_read, SpekeSession.receive_message,
          SpekeSession.ReceiveMessage, hopen]
      | some m =>
        cases m with
        | empty =>
          simp [SpekeSession.handle_read, SpekeSession.receive_message,
            SpekeSession.ReceiveMessage, hopen]
        | initData id pk =>
          simp [SpekeSession.handle_read, SpekeSession.receive_message,
            SpekeSession.ReceiveMessage, hopen, hs,
            SPEKE.ProvideRemotePublicKeyIdPair, hinit]
        | keyConfirmation kcd =>
          cases hd : decide (kcd = SPEKE.kcd_remote prims eng) with
          | false =>
            simp [SpekeSession.handle_read, SpekeSession.receive_message,
              SpekeSession.ReceiveMessage, hopen, hs, SPEKE.ConfirmKey, hinit, hd]
          | true =>
            simp [SpekeSession.handle_read, SpekeSession.receive_message,
              SpekeSession.ReceiveMessage, hopen, hs, SPEKE.ConfirmKey, hinit, hd]
        | signedData sig data =>
          cases hd : decide (sig = prims.hmac eng.encryption_key data) with
          | false =>
            simp [SpekeSession.handle_read, SpekeSession.receive_message,
              SpekeSession.ReceiveMessage, hopen, hs,
              SPEKE.ConfirmHmacSignature, hinit, hd]
          | true =>
            simp [SpekeSession.handle_read, SpekeSession.receive_message,
              SpekeSession.ReceiveMessage, hopen, hs,
              SPEKE.ConfirmHmacSignature, hinit, hd]

/-- Witness for C2 (amended) at a concrete initialized session. -/
theorem handle_read_absorbs_errors_when_initialized_witness :
    ∃ s1, SpekeSession.handle_read prims0 sessRun none
        (WireRead.ok (some (SpekeMessage.keyConfirmation [1]))) none
      = HandleOutcome.normal s1 :=
  handle_read_absorbs_errors_when_initialized prims0 sessRun engInit none
    (WireRead.ok (some (SpekeMessage.keyConfirmation [1]))) none rfl rfl rfl

/-- C3 failing input: starting `Run` on an idle session whose initial
`InitData` write fails with a broken pipe.  `send_message` closes the
session with `STOPPED_PEER_DISCONNECTED` (latching `closed_`, releasing the
engine and stream), and then the tail of `Run` unconditionally assigns
`state_ = RUNNING`, so the terminal state is overwritten; a later close is a
no-op because of the latch, leaving the session at `RUNNING` forever. -/
theorem run_overwrites_stopped_state_after_failed_send :
    (SpekeSession.send_message
        (SpekeSession.start_reading (SpekeSession.SetMessageHandler sessIdle 0))
        (SpekeMessage.initData engFresh.id_numbered engFresh.pubkey)
        (some StreamError.broken_pipe)).map SpekeSession.state
      = Except.ok SpekeSessionState.STOPPED_PEER_DISCONNECTED
    ∧ SpekeSession.Run sessIdle 0 (some StreamError.broken_pipe)
      = Except.ok { state := SpekeSessionState.RUNNING, closed := true, speke := none,
                    socketOpen := false, handler := some 0, bad_behavior_count := 0,
                    sent := [], delivered := [], readPending := false }
    ∧ SpekeSession.Close
        { state := SpekeSessionState.RUNNING, closed := true, speke := none,
          socketOpen := false, handler := some 0, bad_behavior_count := 0,
          sent := [], delivered := [], readPending := false }
        SpekeSessionState.STOPPED
      = { state := SpekeSessionState.RUNNING, closed := true, speke := none,
          socketOpen := false, handler := some 0, bad_behavior_count := 0,
          sent := [], delivered := [], readPending := false } := by
  refine ⟨rfl, rfl, rfl⟩

/-- Incrementing the bad-behavior counter always adds exactly one. -/
theorem increase_bad_count_eq (s : SpekeSession) :
    s.increase_bad_behavior_count.bad_behavior_count = s.bad_behavior_count + 1 := by
  simp only [SpekeSession.increase_bad_behavior_count, SpekeSession.Close]
  split
  · split <;> rfl
  · rfl

/-- Incrementing the bad-behavior counter never touches the delivery log. -/
theorem increase_delivered_eq (s : SpekeSession) :
    s.increase_bad_behavior_count.delivered = s.delivered := by
  simp only [SpekeSession.increase_bad_behavior_count, SpekeSession.Close]
  split
  · split <;> rfl
  · rfl

/-- Reaching the limit on a live session closes it with
`STOPPED_PEER_BAD_BEHAVIOR`. -/
theorem increase_state_closes (s : SpekeSession)
    (hl : BAD_BEHAVIOR_LIMIT ≤ s.bad_behavior_count + 1) (hc : s.closed = false) :
    s.increase_bad_behavior_count.state = SpekeSessionState.STOPPED_PEER_BAD_BEHAVIOR := by
  simp [SpekeSession.increase_bad_behavior_count, SpekeSession.Close, hl, hc]

/-- C5: effect of a `SignedData` frame on an initialized session.  A frame
whose signature verifies invokes the handler exactly once with the payload
and leaves the bad-behavior counter untouched (so interleaved valid frames
never reset it); a frame whose signature fails increments the counter,
delivers nothing, and, when the counter reaches `BAD_BEHAVIOR_LIMIT` on a
live session, closes it with `STOPPED_PEER_BAD_BEHAVIOR`. -/
theorem signed_data_frame_effect (prims : Primitives) (s : SpekeSession) (eng : SPEKE)
    (sig data : List Nat) (wr : Option StreamError)
    (hs : s.speke = some eng) (hinit : eng.initialized = true)
    (hopen : s.socketOpen = true) :
    (sig = prims.hmac eng.encryption_key data →
      SpekeSession.handle_read prims s none
          (WireRead.ok (some (SpekeMessage.signedData sig data))) wr
        = HandleOutcome.normal (SpekeSession.start_reading (s.handle_message data))
      ∧ (SpekeSession.start_reading (s.handle_message data)).delivered
          = s.delivered ++ [data]
      ∧ (SpekeSession.start_reading (s.handle_message data)).bad_behavior_count
          = s.bad_behavior_count)
    ∧ (sig ≠ prims.hmac eng.encryption_key data →
      SpekeSession.handle_read prims s none
          (WireRead.ok (some (SpekeMessage.signedData sig data))) wr
        = HandleOutcome.normal (SpekeSession.start_reading s.increase_bad_behavior_count)
      ∧ s.increase_bad_behavior_count.bad_behavior_count = s.bad_behavior_count + 1
      ∧ s.increase_bad_behavior_count.delivered = s.delivered
      ∧ (BAD_BEHAVIOR_LIMIT ≤ s.bad_behavior_count + 1 → s.closed = false →
          s.increase_bad_behavior_count.state
            = SpekeSessionState.STOPPED_PEER_BAD_BEHAVIOR)) := by
  constructor
  · intro h
    have hd : decide (sig = prims.hmac eng.encryption_key data) = true := decide_eq_true h
    refine ⟨?_, rfl, rfl⟩
    simp [SpekeSession.handle_read, SpekeSession.receive_message,
      SpekeSession.ReceiveMessage, hopen, hs, SPEKE.ConfirmHmacSignature, hinit, hd]
  · intro h
    have hd : decide (sig = prims.hmac eng.encryption_key data) = false :=
      decide_eq_false h
    refine ⟨?_, increase_bad_count_eq s, increase_delivered_eq s,
      fun hl hc => increase_state_closes s hl hc⟩
    simp [SpekeSession.handle_read, SpekeSession.receive_message,
      SpekeSession.ReceiveMessage, hopen, hs, SPEKE.ConfirmHmacSignature, hinit, hd]

/-- Witness for C5: one validly signed frame (HMAC of `[5]` under key
`[1, 2]` is `[1, 2, 5]` for the concrete primitives) and one badly signed
frame. -/
theorem signed_data_frame_effect_witness :
    (SpekeSession.handle_read prims0 sessRun none
        (WireRead.ok (some (SpekeMessage.signedData [1, 2, 5] [5]))) none
      = HandleOutcome.normal (SpekeSession.start_reading (sessRun.handle_message [5]))
     ∧ (SpekeSession.start_reading (sessRun.handle_message [5])).delivered
         = sessRun.delivered ++ [[5]]
     ∧ (SpekeSession.start_reading (sessRun.handle_message [5])).bad_behavior_count
         = sessRun.bad_behavior_count)
    ∧ (SpekeSession.handle_read prims0 sessRun none
        (WireRead.ok (some (SpekeMessage.signedData [9] [5]))) none
      = HandleOutcome.normal (SpekeSession.start_reading sessRun.increase_bad_behavior_count)
     ∧ sessRun.increase_bad_behavior_count.bad_behavior_count
         = sessRun.bad_behavior_count + 1
     ∧ sessRun.increase_bad_behavior_count.delivered = sessRun.delivered
     ∧ (BAD_BEHAVIOR_LIMIT ≤ sessRun.bad_behavior_count + 1 → sessRun.closed = false →
          sessRun.increase_bad_behavior_count.state
            = SpekeSessionState.STOPPED_PEER_BAD_BEHAVIOR)) :=
  ⟨(signed_data_frame_effect prims0 sessRun engInit [1, 2, 5] [5] none rfl rfl rfl).1
      (by decide),
   (signed_data_frame_effect prims0 sessRun engInit [9] [5] none rfl rfl rfl).2
      (by decide)⟩

/-- A successful `ProvideRemotePublicKeyIdPair` leaves the engine
initialized. -/
theorem provide_ok_initialized (prims : Primitives) (e e1 : SPEKE) (rp : Nat)
    (rid : String)
    (h : SPEKE.ProvideRemotePublicKeyIdPair prims e rp rid = (e1, none)) :
    e1.initialized = true := by
  simp only [SPEKE.ProvideRemotePublicKeyIdPair] at h
  split_ifs at h with h1 h2
  · simp at h
  · simp at h
  · injection h with ha hb
    rw [← ha]

/-- C6: effect of an `InitData` frame.  On an already-initialized engine the
frame is ignored (no bad-behavior increment, nothing sent, state unchanged);
a key failing the range or generator check closes the session with
`STOPPED_PEER_PUBLIC_KEY_OR_ID_INVALID`; on success the session stores the
updated engine and sends a `KeyConfirmation` frame carrying the engine's key
confirmation data. -/
theorem init_data_frame_effect (prims : Primitives) (s : SpekeSession) (eng : SPEKE)
    (pid : String) (pk : Nat) (wr : Option StreamError)
    (hs : s.speke = some eng) (hopen : s.socketOpen = true) :
    (eng.initialized = true →
      SpekeSession.handle_read prims s none
          (WireRead.ok (some (SpekeMessage.initData pid pk))) wr
        = HandleOutcome.normal (SpekeSession.start_reading s)
      ∧ (SpekeSession.start_reading s).bad_behavior_count = s.bad_behavior_count
      ∧ (SpekeSession.start_reading s).sent = s.sent
      ∧ (SpekeSession.start_reading s).state = s.state)
    ∧ (eng.initialized = false → (pk ≤ 1 ∨ eng.p - 1 ≤ pk ∨ pk = eng.gen) →
       s.closed = false →
      SpekeSession.handle_read prims s none
          (WireRead.ok (some (SpekeMessage.initData pid pk))) wr
        = HandleOutcome.normal
            (SpekeSession.Close s SpekeSessionState.STOPPED_PEER_PUBLIC_KEY_OR_ID_INVALID)
      ∧ (SpekeSession.Close s SpekeSessionState.STOPPED_PEER_PUBLIC_KEY_OR_ID_INVALID).state
          = SpekeSessionState.STOPPED_PEER_PUBLIC_KEY_OR_ID_INVALID)
    ∧ (∀ eng1, SPEKE.ProvideRemotePublicKeyIdPair prims eng pk pid = (eng1, none) →
       wr = none →
      SpekeSession.handle_read prims s none
          (WireRead.ok (some (SpekeMessage.initData pid pk))) wr
        = HandleOutcome.normal (SpekeSession.start_reading
            { s with speke := some eng1,
                     sent := s.sent
                       ++ [SpekeMessage.keyConfirmation eng1.key_confirmation_data] })) := by
  refine ⟨?_, ?_, ?_⟩
  · intro hinit
    refine ⟨?_, rfl, rfl, rfl⟩
    simp [SpekeSession.handle_read, SpekeSession.receive_message,
      SpekeSession.ReceiveMessage, hopen, hs,
      SPEKE.ProvideRemotePublicKeyIdPair, hinit]
  · intro h0 hval hc
    have hp : SPEKE.ProvideRemotePublicKeyIdPair prims eng pk pid
        = (eng, some SpekeError.PeerKeyInvalid) := by
      unfold SPEKE.ProvideRemotePublicKeyIdPair
      rw [if_neg (by simp [h0]), if_pos hval]
    refine ⟨?_, by simp [SpekeSession.Close, hc]⟩
    simp [SpekeSession.handle_read, SpekeSession.receive_message,
      SpekeSession.ReceiveMessage, hopen, hs, hp]
  · intro eng1 hprov hwr
    subst hwr
    have hi1 := provide_ok_initialized prims eng eng1 pk pid hprov
    simp [SpekeSession.handle_read, SpekeSession.receive_message,
      SpekeSession.ReceiveMessage, hopen, hs, hprov,
      SpekeSession.send_key_confirmation, SPEKE.GetKeyConfirmationData, hi1,
      SpekeSession.send_message, SpekeSession.SendMessage]

/-- Witness for C6: an ignored duplicate on an initialized session and a
successful acceptance followed by the key-confirmation send on a fresh
session. -/
theorem init_data_frame_effect_witness :
    (SpekeSession.handle_read prims0 sessRun none
        (WireRead.ok (some (SpekeMessage.initData "x" 5))) none
      = HandleOutcome.normal (SpekeSession.start_reading sessRun)
     ∧ (SpekeSession.start_reading sessRun).bad_behavior_count
         = sessRun.bad_behavior_count
     ∧ (SpekeSession.start_reading sessRun).sent = sessRun.sent
     ∧ (SpekeSession.start_reading sessRun).state = sessRun.state)
    ∧ SpekeSession.handle_read prims0 sessFresh none
        (WireRead.ok (some (SpekeMessage.initData "bob-1" 16))) none
      = HandleOutcome.normal (SpekeSession.start_reading
          { sessFresh with
              speke := some (SPEKE.ProvideRemotePublicKeyIdPair prims0 engFresh 16 "bob-1").1,
              sent := sessFresh.sent
                ++ [SpekeMessage.keyConfirmation
                     (SPEKE.ProvideRemotePublicKeyIdPair prims0 engFresh 16 "bob-1").1.key_confirmation_data] }) :=
  ⟨(init_data_frame_effect prims0 sessRun engInit "x" 5 none rfl rfl).1 rfl,
   (init_data_frame_effect prims0 sessFresh engFresh "bob-1" 16 none rfl rfl).2.2
     (SPEKE.ProvideRemotePublicKeyIdPair prims0 engFresh 16 "bob-1").1 (by decide) rfl⟩

/-- C8: once-only initialization.  After a successful
`ProvideRemotePublicKeyIdPair` the engine is initialized, and a second call
fails with `AlreadyInitialized` while returning the engine state unchanged
(the C++ member throws before mutating anything), so `encryption_key`,
`nonce`, `key_confirmation_data`, `remote_id_numbered` and `remote_pubkey`
keep the values computed by the first call. -/
theorem provide_remote_pair_once_only (prims : Primitives) (e e1 : SPEKE)
    (rp : Nat) (rid : String) (rp2 : Nat) (rid2 : String)
    (h : SPEKE.ProvideRemotePublicKeyIdPair prims e rp rid = (e1, none)) :
    e1.initialized = true
    ∧ SPEKE.ProvideRemotePublicKeyIdPair prims e1 rp2 rid2
        = (e1, some SpekeError.AlreadyInitialized) := by
  have hi := provide_ok_initialized prims e e1 rp rid h
  refine ⟨hi, ?_⟩
  unfold SPEKE.ProvideRemotePublicKeyIdPair
  rw [if_pos hi]

/-- Witness for C8 at a concrete engine: accept once, then fail with
`AlreadyInitialized` and the unchanged engine. -/
theorem provide_remote_pair_once_only_witness :
    (SPEKE.ProvideRemotePublicKeyIdPair prims0 engFresh 16 "bob-1").1.initialized = true
    ∧ SPEKE.ProvideRemotePublicKeyIdPair prims0
        (SPEKE.ProvideRemotePublicKeyIdPair prims0 engFresh 16 "bob-1").1 8 "x"
      = ((SPEKE.ProvideRemotePublicKeyIdPair prims0 engFresh 16 "bob-1").1,
         some SpekeError.AlreadyInitialized) :=
  provide_remote_pair_once_only prims0 engFresh
    (SPEKE.ProvideRemotePublicKeyIdPair prims0 engFresh 16 "bob-1").1
    16 "bob-1" 8 "x" (by decide)

/-- C9: two consecutive constructions with the same id argument against the
process-wide registry number their ids with consecutive counter values, so
the resulting `id_numbered` values are distinct. -/
theorem construction_numbers_ids_distinctly (prims1 prims2 : Primitives)
    (id pw1 pw2 : String) (p1 p2 v1 v2 : Nat) (reg : String → Nat) (e1 e2 : SPEKE)
    (h1 : (SPEKE.constructR prims1 id pw1 p1 v1 reg).1 = some e1)
    (h2 : (SPEKE.constructR prims2 id pw2 p2 v2
            (SPEKE.constructR prims1 id pw1 p1 v1 reg).2).1 = some e2) :
    e1.id_numbered = SPEKE.make_id id (reg id + 1)
    ∧ e2.id_numbered = SPEKE.make_id id (reg id + 2)
    ∧ e1.id_numbered ≠ e2.id_numbered := by
  have h1' : SPEKE.construct prims1 id pw1 p1 v1 (reg id + 1) = some e1 := by
    simpa [SPEKE.constructR, SPEKE.id_counts_next] using h1
  have h2' : SPEKE.construct prims2 id pw2 p2 v2 (reg id + 2) = some e2 := by
    simpa [SPEKE.constructR, SPEKE.id_counts_next] using h2
  have e1id : e1.id_numbered = SPEKE.make_id id (reg id + 1) := by
    simp only [SPEKE.construct] at h1'
    split_ifs at h1' with hA hB
    all_goals first
      | exact Option.noConfusion h1'
      | (injection h1' with h; rw [← h])
  have e2id : e2.id_numbered = SPEKE.make_id id (reg id + 2) := by
    simp only [SPEKE.construct] at h2'
    split_ifs at h2' with hA hB
    all_goals first
      | exact Option.noConfusion h2'
      | (injection h2' with h; rw [← h])
  refine ⟨e1id, e2id, ?_⟩
  rw [e1id, e2id]
  intro heq
  have := make_id_inj_count id (reg id + 1) (reg id + 2) (by omega) (by omega) heq
  omega

/-- Witness for C9 at concrete constructions from the empty registry. -/
theorem construction_numbers_ids_distinctly_witness :
    ("alice-1" : String) = SPEKE.make_id "alice" 1
    ∧ ("alice-2" : String) = SPEKE.make_id "alice" 2
    ∧ ("alice-1" : String) ≠ "alice-2" :=
  construction_numbers_ids_distinctly prims0 prims0 "alice" "x" "x" 23 23 3 4
    (fun _ => 0)
    { p := 23, q := 11, gen := 2, privkey := 3, pubkey := 8, id_numbered := "alice-1" }
    { p := 23, q := 11, gen := 2, privkey := 4, pubkey := 16, id_numbered := "alice-2" }
    (by decide) (by decide)

/-- Shape of the engine state left by a successful
`ProvideRemotePublicKeyIdPair`. -/
theorem provide_ok_eq (prims : Primitives) (e : SPEKE) (rp : Nat) (rid : String)
    (e1 : SPEKE)
    (h : SPEKE.ProvideRemotePublicKeyIdPair prims e rp rid = (e1, none)) :
    e1 = { e with
            remote_id_numbered := rid
            remote_pubkey := rp
            encryption_key := (SPEKE.make_encryption_key prims
              (SPEKE.make_keying_material prims e rid rp)).1
            nonce := (SPEKE.make_encryption_key prims
              (SPEKE.make_keying_material prims e rid rp)).2
            key_confirmation_data := SPEKE.gen_kcd prims
              (SPEKE.make_encryption_key prims
                (SPEKE.make_keying_material prims e rid rp)).1
              rid e.id_numbered rp e.pubkey
            initialized := true } := by
  simp only [SPEKE.ProvideRemotePublicKeyIdPair] at h
  split_ifs at h with h1 h2
  all_goals first
    | (injection h with ha hb; exact Option.noConfusion hb)
    | (injection h with ha hb; exact ha.symm)

/-- C1: symmetry of the derived material.  Two engines built from the same
password and safe prime that honestly exchange their numbered ids and public
keys derive identical encryption keys and nonces, and each side's local key
confirmation data equals the value the other side expects from its remote,
because the keying material orders the two ids and public keys by min/max
before hashing and the Diffie-Hellman value commutes. -/
theorem speke_symmetry_of_derived_material (prims : Primitives) (pw idA idB : String)
    (p a b ca cb : Nat) (eA eB eA1 eB1 : SPEKE)
    (hA : SPEKE.construct prims idA pw p a ca = some eA)
    (hB : SPEKE.construct prims idB pw p b cb = some eB)
    (hPA : SPEKE.ProvideRemotePublicKeyIdPair prims eA eB.pubkey eB.id_numbered
      = (eA1, none))
    (hPB : SPEKE.ProvideRemotePublicKeyIdPair prims eB eA.pubkey eA.id_numbered
      = (eB1, none)) :
    eA1.encryption_key = eB1.encryption_key
    ∧ eA1.nonce = eB1.nonce
    ∧ eA1.key_confirmation_data = SPEKE.kcd_remote prims eB1
    ∧ eB1.key_confirmation_data = SPEKE.kcd_remote prims eA1 := by
  simp only [SPEKE.construct] at hA hB
  split_ifs at hA hB with h1 h2
  injection hA with hA'
  injection hB with hB'
  subst hA'
  subst hB'
  have eAeq := provide_ok_eq prims _ _ _ _ hPA
  have eBeq := provide_ok_eq prims _ _ _ _ hPB
  subst eAeq
  subst eBeq
  refine ⟨?_, ?_, ?_, ?_⟩ <;>
    · simp only [SPEKE.make_keying_material, SPEKE.make_encryption_key,
        SPEKE.kcd_remote, SPEKE.gen_kcd]
      rw [strMin_comm (SPEKE.make_id idA ca) (SPEKE.make_id idB cb),
        strMax_comm (SPEKE.make_id idA ca) (SPEKE.make_id idB cb),
        min_comm (SPEKE.make_generator prims pw p ^ a % p)
          (SPEKE.make_generator prims pw p ^ b % p),
        max_comm (SPEKE.make_generator prims pw p ^ a % p)
          (SPEKE.make_generator prims pw p ^ b % p),
        dh_comm (SPEKE.make_generator prims pw p) p b a]

/-- Witness for C1 at a concrete honest exchange over `p = 23`. -/
theorem speke_symmetry_of_derived_material_witness :
    (SPEKE.ProvideRemotePublicKeyIdPair prims0 engFresh engFreshB.pubkey
        engFreshB.id_numbered).1.encryption_key
      = (SPEKE.ProvideRemotePublicKeyIdPair prims0 engFreshB engFresh.pubkey
          engFresh.id_numbered).1.encryption_key
    ∧ (SPEKE.ProvideRemotePublicKeyIdPair prims0 engFresh engFreshB.pubkey
        engFreshB.id_numbered).1.nonce
      = (SPEKE.ProvideRemotePublicKeyIdPair prims0 engFreshB engFresh.pubkey
          engFresh.id_numbered).1.nonce
    ∧ (SPEKE.ProvideRemotePublicKeyIdPair prims0 engFresh engFreshB.pubkey
        engFreshB.id_numbered).1.key_confirmation_data
      = SPEKE.kcd_remote prims0
          (SPEKE.ProvideRemotePublicKeyIdPair prims0 engFreshB engFresh.pubkey
            engFresh.id_numbered).1
    ∧ (SPEKE.ProvideRemotePublicKeyIdPair prims0 engFreshB engFresh.pubkey
        engFresh.id_numbered).1.key_confirmation_data
      = SPEKE.kcd_remote prims0
          (SPEKE.ProvideRemotePublicKeyIdPair prims0 engFresh engFreshB.pubkey
            engFreshB.id_numbered).1 :=
  speke_symmetry_of_derived_material prims0 "x" "alice" "bob" 23 3 4 1 1
    engFresh engFreshB
    (SPEKE.ProvideRemotePublicKeyIdPair prims0 engFresh engFreshB.pubkey
      engFreshB.id_numbered).1
    (SPEKE.ProvideRemotePublicKeyIdPair prims0 engFreshB engFresh.pubkey
      engFresh.id_numbered).1
    (by decide) (by decide) (by decide) (by decide)
